import Mathlib

/-!
# XDP attach point (felix/bpf/xdp/attach.go)

A shallow embedding of the attach / detach state machine of the XDP attach
point, and of the global configuration writer, followed by the properties
proved about them.  A second part does the same for `writeDiags` of the cluster
diagnostics command (calicoctl/calicoctl/commands/cluster/diags.go).

## Modelling conventions

* Go strings that are handled byte by byte (interface names) are `List UInt8`.
* Go `int` values (program IDs, modes) are `Int`; conversions to unsigned
  machine integers are explicit remainders (`uint32Of`, `uintOf`).
* A Go `error` is `Option Error`: `none` is `nil`.
* Everything outside the package (the object loader, the kernel queries, the
  attachment record store) is a field of `Env`.  Every such call is deterministic
  in the history of the calls made before it: it receives the trace of earlier
  calls and its arguments.  Each call appends one `Event` to the trace, so a
  function of the package maps a trace to its result and the extended trace.
* Logging has no effect on the results and is left out.
-/

namespace Xdp

/-- Go error values: an error handed back by a collaborator, or one built by
`fmt.Errorf` with the given format string, with or without a wrapped cause. -/
inductive Error where
  | ext (code : Nat)
  | errorf (format : String) (cause : Error)
  | errorfNil (format : String)
  | indexOutOfRange
deriving DecidableEq, Repr

/-- The result of `fmt.Errorf(format, ..., err)` with verb `%w`, whose `err` may be nil:
the error returned is never nil. -/
def Errorf (format : String) (err : Option Error) : Error :=
  match err with
  | some e => Error.errorf format e
  | none => Error.errorfNil format

/-- The hooks of package `hook`; only `XDP` is used by this package. -/
inductive Hook where
  | Ingress
  | Egress
  | XDP
deriving DecidableEq, Repr

/-- What the package reads of a `libbpf.Map`: `Name()`, `Type()` (here `MapType`), `IsMapInternal()`. -/
structure Map where
  Name : String
  MapType : Int
  IsMapInternal : Bool
deriving DecidableEq, Repr

/-- An opened object: the maps that the iteration `FirstMap` / `NextMap` yields
before it ends (with a nil map or with an error: the loop leaves silently on both). -/
structure Obj where
  maps : List Map
deriving DecidableEq, Repr

/-- The record `libbpf.XDPGlobalData`: the interface name and the array of jump indexes
(`uint32` entries). -/
structure XDPGlobalData where
  IfaceName : List UInt8
  Jumps : List Nat
deriving DecidableEq, Repr

/-- One call to a collaborator, with its arguments.  The last constructor is the write of an
attachment record (`recordAttached` of the Attachment Record Store in the spec); the source
has no call of it, so no function below produces it. -/
inductive Event where
  | OpenObject (path : String)
  | Close
  | XDPSetGlobals (m : Map) (globalData : XDPGlobalData)
  | SetPinPath (m : Map) (path : String)
  | Load
  | AttachXDP (ifName : List UInt8) (progName : String) (oldID : Int) (flags : Nat)
  | GetXDPProgramID (ifName : List UInt8)
  | DetachXDP (ifName : List UInt8) (flags : Nat)
  | AlreadyAttachedProg (ifName : List UInt8) (object : String) (progID : Int)
  | ForgetAttachedProg (ifName : List UInt8) (hook : Hook)
  | RememberAttachedProg (ifName : List UInt8) (hook : Hook) (object : String) (progID : Int)
deriving DecidableEq, Repr

/-- The attach point: the fields and methods of the embedded `bpf.AttachPoint` that this
package reads (`Iface`, `LogLevel`, `PolicyIdx(family)`), and `Modes`. -/
structure AttachPoint where
  Iface : List UInt8
  LogLevel : String
  PolicyIdx : Int → Int
  Modes : List Int

/-- The constants, library functions and collaborators that the package uses and
does not define.  A collaborator receives the trace of the calls made so far. -/
structure Env where
  ObjectDir : String
  ProgIndexPolicy : Nat
  ProgIndexEnd : Nat
  JumpsLen : Nat
  Join : String → String → String
  ToLower : String → String
  MapPinDir : Int → String → List UInt8 → Hook → String
  OpenObject : List Event → String → Except Error Obj
  XDPSetGlobals : List Event → Map → XDPGlobalData → Option Error
  SetPinPath : List Event → Map → String → Option Error
  Load : List Event → Option Error
  AttachXDP : List Event → List UInt8 → String → Int → Nat → Int × Option Error
  GetXDPProgramID : List Event → List UInt8 → Int × Option Error
  DetachXDP : List Event → List UInt8 → Nat → Option Error
  AlreadyAttachedProg : List Event → AttachPoint → String → Int → Bool × Option Error
  ForgetAttachedProg : List Event → List UInt8 → Hook → Option Error

/-- The constant `DetachedID = 0`. -/
def DetachedID : Int := 0

/-- The constant `unix.XDP_FLAGS_REPLACE` (`1 << 4`). -/
def XDP_FLAGS_REPLACE : Nat := 16

/-- The conversion `uint(x)` of a Go `int` (64 bits). -/
def uintOf (x : Int) : Nat := (x % 2 ^ 64).toNat

/-- The conversion `uint32(x)` of a Go `int`. -/
def uint32Of (x : Int) : Nat := (x % 2 ^ 32).toNat

/-- Modelled from the spec: the method `IfaceName()` of the embedded `bpf.AttachPoint`, which
is not in the source: the name of the interface of the attach point (the attachment record is
kept per interface and hook). -/
def AttachPoint.IfaceName (ap : AttachPoint) : List UInt8 := ap.Iface

/-- The method `FileName`. -/
def AttachPoint.FileName (env : Env) (ap : AttachPoint) : String :=
  let logLevel := env.ToLower ap.LogLevel
  let logLevel := if logLevel = "off" then "no_log" else logLevel
  "xdp_" ++ logLevel ++ ".o"

/-- The method `ProgramName`. -/
def AttachPoint.ProgramName (_ap : AttachPoint) : String := "cali_xdp_preamble"

/-- The method `ProgramID`: one kernel query. -/
def AttachPoint.ProgramID (env : Env) (tr : List Event) (ap : AttachPoint) :
    (Int × Option Error) × List Event :=
  let r := env.GetXDPProgramID tr ap.Iface
  let tr1 := tr ++ [Event.GetXDPProgramID ap.Iface]
  match r.2 with
  | some err => ((-1, some (Error.errorf "Couldn't check for XDP program on iface %v: %w" err)), tr1)
  | none => ((r.1, none), tr1)

/-- The method `IsAttached`: `return err == nil, err` after a `ProgramID` call whose ID
is dropped. -/
def AttachPoint.IsAttached (env : Env) (tr : List Event) (ap : AttachPoint) :
    (Bool × Option Error) × List Event :=
  let r := ap.ProgramID env tr
  ((r.1.2.isNone, r.1.2), r.2)

/-- The method `AlreadyAttached`. -/
def AttachPoint.AlreadyAttached (env : Env) (tr : List Event) (ap : AttachPoint)
    (object : String) : (Int × Bool) × List Event :=
  let r1 := ap.ProgramID env tr
  match r1.1.2 with
  | some _ => ((-1, false), r1.2)
  | none =>
    let progID := r1.1.1
    let r2 := ap.IsAttached env r1.2
    match r2.1.2 with
    | some _ => ((-1, false), r2.2)
    | none =>
      let somethingAttached := r2.1.1
      let r3 := env.AlreadyAttachedProg r2.2 ap object progID
      let tr3 := r2.2 ++ [Event.AlreadyAttachedProg ap.Iface object progID]
      match r3.2 with
      | some _ => ((-1, false), tr3)
      | none =>
        let isAttached := r3.1
        if isAttached && somethingAttached then ((progID, true), tr3)
        else ((-1, false), tr3)

/-- The byte string `"---------------"` of `ConfigureProgram`: fifteen dashes (byte 45). -/
def dashes : List UInt8 := [45, 45, 45, 45, 45, 45, 45, 45, 45, 45, 45, 45, 45, 45, 45]

/-- Go built-in `copy(dst, src)`: the first `min(len(dst), len(src))` bytes of `dst`
are replaced by those of `src`. -/
def copy (dst src : List UInt8) : List UInt8 :=
  let n := min dst.length src.length
  src.take n ++ dst.drop n

/-- The function `ConfigureProgram`: returns the error and the record as it was
handed to `XDPSetGlobals`. -/
def ConfigureProgram (env : Env) (tr : List Event) (m : Map) (iface : List UInt8)
    (globalData : XDPGlobalData) : (Option Error × XDPGlobalData) × List Event :=
  let inBuf := copy dashes iface
  let globalData := { globalData with IfaceName := inBuf }
  let tr1 := tr ++ [Event.XDPSetGlobals m globalData]
  match env.XDPSetGlobals tr m globalData with
  | some err => ((some (Error.errorf "failed to configure xdp: %w" err), globalData), tr1)
  | none => ((none, globalData), tr1)

/-- The zero value of `libbpf.XDPGlobalData`. -/
def XDPGlobalData.zero (env : Env) : XDPGlobalData :=
  { IfaceName := [], Jumps := List.replicate env.JumpsLen 0 }

/-- The loop `for i := 0; i < ProgIndexEnd; i++ { globals.Jumps[i] = uint32(i) }`. -/
def selfJumps (env : Env) (jumps : List Nat) : List Nat :=
  (List.range env.ProgIndexEnd).foldl (fun js i => js.set i (uint32Of i)) jumps

/-- The globals that `AttachProgram` builds for an internal map, before the interface name
is filled in: self jumps, then the policy slot. -/
def buildGlobals (env : Env) (ap : AttachPoint) : XDPGlobalData :=
  let globals := XDPGlobalData.zero env
  let globals := { globals with Jumps := selfJumps env globals.Jumps }
  { globals with Jumps := globals.Jumps.set env.ProgIndexPolicy (uint32Of (ap.PolicyIdx 4)) }

/-- The loop over the maps of the object in `AttachProgram`.  The indexes written into
`Jumps` are checked against the array bounds by Go; an index out of range aborts the call,
which the model reports as the outcome `Error.indexOutOfRange`. -/
def configureMaps (env : Env) (ap : AttachPoint) : List Map → List Event → Option Error × List Event
  | [], tr => (none, tr)
  | m :: ms, tr =>
    if m.IsMapInternal then
      if env.ProgIndexEnd ≤ env.JumpsLen ∧ env.ProgIndexPolicy < env.JumpsLen then
        let r := ConfigureProgram env tr m ap.Iface (buildGlobals env ap)
        match r.1.1 with
        | some err => (some err, r.2)
        | none => configureMaps env ap ms r.2
      else (some Error.indexOutOfRange, tr)
    else
      let pinDir := env.MapPinDir m.MapType m.Name ap.Iface Hook.XDP
      let pinPath := env.Join pinDir m.Name
      let tr1 := tr ++ [Event.SetPinPath m pinPath]
      match env.SetPinPath tr m pinPath with
      | some err => (some (Error.errorf "error pinning map %s: %w" err), tr1)
      | none => configureMaps env ap ms tr1

/-- The flags of the attach call for a mode: `unix.XDP_FLAGS_REPLACE|uint(mode)`. -/
def attachFlags (mode : Int) : Nat := XDP_FLAGS_REPLACE ||| uintOf mode

/-- The loop over `ap.Modes` in `AttachProgram`: the state is `progID` and
`attachmentSucceeded`. -/
def attachLoop (env : Env) (ap : AttachPoint) (oldID : Int) :
    List Int → Int → List Event → (Int × Bool) × List Event
  | [], progID, tr => ((progID, false), tr)
  | mode :: rest, _, tr =>
    let r := env.AttachXDP tr ap.Iface ap.ProgramName oldID (attachFlags mode)
    let tr1 := tr ++ [Event.AttachXDP ap.Iface ap.ProgramName oldID (attachFlags mode)]
    if r.2.isSome || r.1 == DetachedID || r.1 == oldID then
      attachLoop env ap oldID rest r.1 tr1
    else ((r.1, true), tr1)

/-- The part of `AttachProgram` that runs between the opening of the object and the
deferred `obj.Close()`. -/
def attachOpened (env : Env) (ap : AttachPoint) (obj : Obj) (binaryToLoad : String)
    (tr : List Event) : (Int × Option Error) × List Event :=
  let c := configureMaps env ap obj.maps tr
  match c.1 with
  | some err => ((-1, some err), c.2)
  | none =>
    let a := ap.AlreadyAttached env c.2 binaryToLoad
    if a.1.2 then ((a.1.1, none), a.2)
    else
      let tr1 := a.2 ++ [Event.Load]
      match env.Load a.2 with
      | some err => ((-1, some (Error.errorf "error loading program: %w" err)), tr1)
      | none =>
        let p := ap.ProgramID env tr1
        match p.1.2 with
        | some err =>
          ((-1, some (Error.errorf "failed to get the attached XDP program ID: %w" err)), p.2)
        | none =>
          let oldID := p.1.1
          let l := attachLoop env ap oldID ap.Modes a.1.1 p.2
          if !l.1.2 then
            ((-1, some (Error.errorfNil
              "failed to attach XDP program with program name %v to interface %v")), l.2)
          else ((l.1.1, none), l.2)

/-- The method `AttachProgram`. -/
def AttachPoint.AttachProgram (env : Env) (tr : List Event) (ap : AttachPoint) :
    (Int × Option Error) × List Event :=
  let binaryToLoad := env.Join env.ObjectDir "xdp_preamble.o"
  let tr1 := tr ++ [Event.OpenObject binaryToLoad]
  match env.OpenObject tr binaryToLoad with
  | .error err => ((-1, some err), tr1)
  | .ok obj =>
    let r := attachOpened env ap obj binaryToLoad tr1
    (r.1, r.2 ++ [Event.Close])

/-- The loop over `ap.Modes` in `DetachProgram`.  The result is `(err, removalSucceeded)`:
`err` is the error of the early return on a failed re-read of the program ID. -/
def detachLoop (env : Env) (ap : AttachPoint) :
    List Int → List Event → (Option Error × Bool) × List Event
  | [], tr => ((none, false), tr)
  | mode :: rest, tr =>
    let tr1 := tr ++ [Event.DetachXDP ap.Iface (uintOf mode)]
    match env.DetachXDP tr ap.Iface (uintOf mode) with
    | some _ => detachLoop env ap rest tr1
    | none =>
      let c := ap.ProgramID env tr1
      match c.1.2 with
      | some err =>
        ((some (Error.errorf "failed to get the attached XDP program ID: %w" err), false), c.2)
      | none =>
        if c.1.1 == DetachedID then ((none, true), c.2)
        else detachLoop env ap rest c.2

/-- The method `DetachProgram`. -/
def AttachPoint.DetachProgram (env : Env) (tr : List Event) (ap : AttachPoint) :
    Option Error × List Event :=
  let p := ap.ProgramID env tr
  match p.1.2 with
  | some err => (some (Error.errorf "failed to get the attached XDP program ID: %w" err), p.2)
  | none =>
    let progID := p.1.1
    if progID == DetachedID then (none, p.2)
    else
      let object := env.Join env.ObjectDir (ap.FileName env)
      let o := env.AlreadyAttachedProg p.2 ap object progID
      let tr1 := p.2 ++ [Event.AlreadyAttachedProg ap.Iface object progID]
      if o.2.isSome || !o.1 then
        (some (Errorf "XDP expected program ID does match with current one: %w" o.2), tr1)
      else
        let l := detachLoop env ap ap.Modes tr1
        match l.1.1 with
        | some err => (some err, l.2)
        | none =>
          if !l.1.2 then
            (some (Error.errorfNil "couldn't remove our XDP program. program ID: %v"), l.2)
          else
            let tr2 := l.2 ++ [Event.ForgetAttachedProg ap.IfaceName Hook.XDP]
            match env.ForgetAttachedProg l.2 ap.IfaceName Hook.XDP with
            | some err =>
              (some (Error.errorf "failed to delete hash of BPF program from disk: %w" err), tr2)
            | none => (none, tr2)

/-! ## Vocabulary of the properties -/

/-- The attach call that `AttachProgram` makes for a mode. -/
def attachEvent (ap : AttachPoint) (oldID : Int) (mode : Int) : Event :=
  Event.AttachXDP ap.Iface ap.ProgramName oldID (attachFlags mode)

/-- A mode qualifies at a trace: its attach call, made after that trace, returns no
error and a program ID that is neither `DetachedID` nor `oldID`. -/
def qualifies (env : Env) (ap : AttachPoint) (oldID : Int) (tr : List Event) (mode : Int) : Bool :=
  let r := env.AttachXDP tr ap.Iface ap.ProgramName oldID (attachFlags mode)
  r.2.isNone && r.1 != DetachedID && r.1 != oldID

/-- No mode of the list qualifies when the modes are attempted one after the other,
starting from the trace. -/
def noneQualifies (env : Env) (ap : AttachPoint) (oldID : Int) : List Int → List Event → Bool
  | [], _ => true
  | mode :: rest, tr =>
    !qualifies env ap oldID tr mode &&
      noneQualifies env ap oldID rest (tr ++ [attachEvent ap oldID mode])

/-- The event is a detach call. -/
def Event.isDetachXDP : Event → Bool
  | Event.DetachXDP _ _ => true
  | _ => false

/-- A world for the examples: the object has one internal map and one map to pin, nothing
is attached at first, the attach call is rejected in every mode but mode 2, where it yields
program 7, and the kernel query reports what the calls made so far have left attached. -/
def demoEnv : Env where
  ObjectDir := "/usr/lib/calico/bpf"
  ProgIndexPolicy := 1
  ProgIndexEnd := 4
  JumpsLen := 16
  Join := fun dir file => dir ++ "/" ++ file
  ToLower := fun s => s
  MapPinDir := fun _ _ _ _ => "/sys/fs/bpf/xdp/globals"
  OpenObject := fun _ _ => .ok { maps := [{ Name := ".rodata", MapType := 2, IsMapInternal := true },
                                          { Name := "cali_state", MapType := 6, IsMapInternal := false }] }
  XDPSetGlobals := fun _ _ _ => none
  SetPinPath := fun _ _ _ => none
  Load := fun _ => none
  AttachXDP := fun _ _ _ _ flags => if flags = 18 then (7, none) else (-1, some (Error.ext 95))
  GetXDPProgramID := fun tr _ =>
    if tr.any (fun e => match e with | Event.AttachXDP _ _ _ 18 => true | _ => false) then (7, none)
    else (0, none)
  DetachXDP := fun _ _ _ => none
  AlreadyAttachedProg := fun _ _ _ _ => (false, none)
  ForgetAttachedProg := fun _ _ _ => none

/-- A world for the examples in which program 7 is attached and recorded as ours; a detach
call removes it in mode 2 only (the other modes return without error and change nothing). -/
def attachedEnv : Env :=
  { demoEnv with
    GetXDPProgramID := fun tr _ =>
      if tr.any (fun e => match e with | Event.DetachXDP _ 2 => true | _ => false) then (0, none)
      else (7, none)
    AlreadyAttachedProg := fun _ _ _ progID => (progID == 7, none) }

/-- A world for the examples in which program 7 is attached and recorded as ours, the detach
call returns no error, and every kernel query made after a detach call fails. -/
def rereadFailEnv : Env :=
  { attachedEnv with
    GetXDPProgramID := fun tr _ =>
      if tr.any Event.isDetachXDP then (-1, some (Error.ext 19))
      else (7, none) }

/-- The attach point of the examples: interface `eth0`, modes 4 then 2, policy index 7. -/
def demoAp : AttachPoint where
  Iface := [101, 116, 104, 48]
  LogLevel := "debug"
  PolicyIdx := fun _ => 7
  Modes := [4, 2]

/-- The event is a load of the object into the kernel. -/
def Event.isLoad : Event → Bool
  | Event.Load => true
  | _ => false

/-- The event is an attach call. -/
def Event.isAttachXDP : Event → Bool
  | Event.AttachXDP _ _ _ _ => true
  | _ => false

/-- The event configures a map of the opened object: a write of the globals or the
setting of a pin path. -/
def Event.isMapSetup : Event → Bool
  | Event.XDPSetGlobals _ _ => true
  | Event.SetPinPath _ _ => true
  | _ => false

/-- The event is the deletion of the attachment record. -/
def Event.isForget : Event → Bool
  | Event.ForgetAttachedProg _ _ => true
  | _ => false

/-- The detach call that `DetachProgram` makes for a mode. -/
def detachEvent (ap : AttachPoint) (mode : Int) : Event :=
  Event.DetachXDP ap.Iface (uintOf mode)

/-- A mode removes the program at a trace: its detach call, made after that trace, returns
no error and the program ID re-read after it is 0. -/
def removes (env : Env) (ap : AttachPoint) (tr : List Event) (mode : Int) : Bool :=
  (env.DetachXDP tr ap.Iface (uintOf mode)).isNone &&
    ((env.GetXDPProgramID (tr ++ [detachEvent ap mode]) ap.Iface).2.isNone &&
      (env.GetXDPProgramID (tr ++ [detachEvent ap mode]) ap.Iface).1 == 0)

/-- The error of the re-read of the program ID after the detach call of a mode, when that
call returned no error and the re-read failed. -/
def rereadError (env : Env) (ap : AttachPoint) (tr : List Event) (mode : Int) : Option Error :=
  if (env.DetachXDP tr ap.Iface (uintOf mode)).isNone then
    (env.GetXDPProgramID (tr ++ [detachEvent ap mode]) ap.Iface).2
  else none

/-- A mode leaves the program in place at a trace: its detach call returns an error, or
the program ID re-read after it is read without error and is not 0. -/
def keeps (env : Env) (ap : AttachPoint) (tr : List Event) (mode : Int) : Bool :=
  (env.DetachXDP tr ap.Iface (uintOf mode)).isSome ||
    ((env.GetXDPProgramID (tr ++ [detachEvent ap mode]) ap.Iface).2.isNone &&
      (env.GetXDPProgramID (tr ++ [detachEvent ap mode]) ap.Iface).1 != 0)

/-- The calls of one detach attempt: the detach call and, when it returned no error, the
re-read of the program ID. -/
def detachCalls (env : Env) (ap : AttachPoint) (tr : List Event) (mode : Int) : List Event :=
  if (env.DetachXDP tr ap.Iface (uintOf mode)).isNone then
    [detachEvent ap mode, Event.GetXDPProgramID ap.Iface]
  else [detachEvent ap mode]

/-- Every mode of the list leaves the program in place when the modes are attempted one
after the other, starting from the trace. -/
def allKeep (env : Env) (ap : AttachPoint) : List Int → List Event → Bool
  | [], _ => true
  | mode :: rest, tr =>
    keeps env ap tr mode && allKeep env ap rest (tr ++ detachCalls env ap tr mode)

/-- The calls of the detach attempts of all the modes of the list, in order. -/
def allCalls (env : Env) (ap : AttachPoint) : List Int → List Event → List Event
  | [], _ => []
  | mode :: rest, tr =>
    detachCalls env ap tr mode ++ allCalls env ap rest (tr ++ detachCalls env ap tr mode)

/-- The event is a write of an attachment record. -/
def Event.isRemember : Event → Bool
  | Event.RememberAttachedProg _ _ _ _ => true
  | _ => false

/-- A world for the examples in which nothing is attached (the kernel query reports ID 0)
and the record store answers that the program is ours. -/
def staleEnv : Env :=
  { demoEnv with AlreadyAttachedProg := fun _ _ _ _ => (true, none) }

/-- An internal map for the examples. -/
def demoMap : Map := { Name := ".rodata", MapType := 2, IsMapInternal := true }

end Xdp

/-! # Cluster diagnostics (calicoctl/calicoctl/commands/cluster/diags.go)

The command list of `runDiags` and the function `writeDiags`.  The commands run and the
files written are calls to the operating system: as above, each is deterministic in the
trace of the calls made before it and appends one event to the trace.  Printing and logging
are left out.  An index out of range aborts the call (a run-time panic of Go): it is the
outcome `Result.indexOutOfRange`, which carries the index and the length of the slice.  The
panic of a slice expression whose bounds are out of range is `Result.sliceOutOfRange`, with
the low bound and the length of the slice. -/

namespace Cluster

/-- The struct `diagCmd`. -/
structure diagCmd where
  info : String
  cmd : String
  filename : String
deriving DecidableEq, Repr

/-- One call to the operating system made by `writeDiags`: the run of a command with its
arguments (`exec.Command(...).CombinedOutput()`), or the write of a file. -/
inductive Effect where
  | CombinedOutput (name : String) (args : List String)
  | WriteFile (path : String) (content : String)
deriving DecidableEq, Repr

/-- The outcome of `writeDiags`: the `nil` return, the return of the error of the command
(here its code), the panic of an index out of range, or the panic of slice bounds out of
range. -/
inductive Result where
  | nil
  | error (code : Nat)
  | indexOutOfRange (index : Nat) (length : Nat)
  | sliceOutOfRange (low : Nat) (length : Nat)
deriving DecidableEq, Repr

/-- The operating system as `writeDiags` uses it, and `filepath.Join` on three elements. -/
structure Sys where
  Join : String → String → String → String
  CombinedOutput : List Effect → String → List String → String × Option Nat
  WriteFile : List Effect → String → String → Option Nat

/-- The white space of `unicode.IsSpace`, by code point: tab, line feed, vertical tab, form
feed, carriage return, space, U+0085, U+00A0, U+1680, U+2000 to U+200A, U+2028, U+2029,
U+202F, U+205F, U+3000. -/
def isSpace (c : Char) : Bool :=
  let n := c.toNat
  (9 ≤ n && n ≤ 13) || n == 32 || n == 133 || n == 160 || n == 5760 ||
    (8192 ≤ n && n ≤ 8202) || n == 8232 || n == 8233 || n == 8239 || n == 8287 || n == 12288

/-- The scan of `strings.Fields`: `cur` holds the characters of the field being read, last
one first. -/
def fieldsFrom : List Char → List Char → List String
  | [], cur => if cur.isEmpty then [] else [String.mk cur.reverse]
  | c :: rest, cur =>
    if isSpace c then
      if cur.isEmpty then fieldsFrom rest [] else String.mk cur.reverse :: fieldsFrom rest []
    else fieldsFrom rest (c :: cur)

/-- The library function `strings.Fields`: the maximal runs of characters that are not white
space, in order. -/
def Fields (s : String) : List String := fieldsFrom s.toList []

/-- The slice `cmds` of `runDiags`. -/
def runDiagsCmds : List diagCmd :=
  [{ info := "", cmd := "hostname", filename := "hostname" }]

/-- The function `writeDiags`.  With no field at all, the call
`exec.Command(parts[0], parts[1:]...)` panics on the slice expression `parts[1:]` (slice
bounds out of range `[1:0]`) and no command is run.  The accesses `parts[3]` and `parts[5]`
are checked against the length of `parts`; an error of `os.WriteFile` is only logged. -/
def writeDiags (sys : Sys) (tr : List Effect) (cmds : diagCmd) (dir : String) :
    Result × List Effect :=
  let parts := Fields cmds.cmd
  match parts with
  | [] => (Result.sliceOutOfRange 1 0, tr)
  | name :: args =>
    let r := sys.CombinedOutput tr name args
    let tr1 := tr ++ [Effect.CombinedOutput name args]
    match r.2 with
    | some code => (Result.error code, tr1)
    | none =>
      if cmds.filename = "" then (Result.nil, tr1)
      else
        match parts[3]? with
        | none => (Result.indexOutOfRange 3 parts.length, tr1)
        | some podName =>
          match parts[5]? with
          | none => (Result.indexOutOfRange 5 parts.length, tr1)
          | some containerName =>
            let fp := sys.Join dir podName containerName
            (Result.nil, tr1 ++ [Effect.WriteFile fp r.1])

/-- A system for the examples in which every command succeeds with the output `node-1` and
every file write succeeds. -/
def demoSys : Sys where
  Join := fun dir a b => dir ++ "/" ++ a ++ "/" ++ b
  CombinedOutput := fun _ _ _ => ("node-1\n", none)
  WriteFile := fun _ _ _ => none

end Cluster

namespace Xdp

/-! ## The mode loop of `AttachProgram` -/

theorem attachLoop_none (env : Env) (ap : AttachPoint) (oldID : Int) (modes : List Int) :
    ∀ (progID : Int) (tr : List Event), noneQualifies env ap oldID modes tr = true →
      (attachLoop env ap oldID modes progID tr).1.2 = false ∧
      (attachLoop env ap oldID modes progID tr).2 = tr ++ modes.map (attachEvent ap oldID) := by
  induction modes with
  | nil => intro progID tr _; simp [attachLoop]
  | cons mode rest ih =>
    intro progID tr h
    simp only [noneQualifies, Bool.and_eq_true, Bool.not_eq_true'] at h
    obtain ⟨hq, hrest⟩ := h
    have hcond : ((env.AttachXDP tr ap.Iface ap.ProgramName oldID (attachFlags mode)).2.isSome
        || (env.AttachXDP tr ap.Iface ap.ProgramName oldID (attachFlags mode)).1 == DetachedID
        || (env.AttachXDP tr ap.Iface ap.ProgramName oldID (attachFlags mode)).1 == oldID) = true := by
      simp only [qualifies] at hq
      cases h2 : (env.AttachXDP tr ap.Iface ap.ProgramName oldID (attachFlags mode)).2 <;>
        simp_all
      by_cases h0 : (env.AttachXDP tr ap.Iface ap.ProgramName oldID (attachFlags mode)).1 = DetachedID
      · exact Or.inl h0
      · exact Or.inr (hq h0)
    have ih2 := ih (env.AttachXDP tr ap.Iface ap.ProgramName oldID (attachFlags mode)).1
      (tr ++ [attachEvent ap oldID mode]) hrest
    simp only [attachLoop, hcond, if_true]
    simpa [attachEvent] using ih2

theorem attachLoop_first (env : Env) (ap : AttachPoint) (oldID : Int) (m : Int)
    (post : List Int) (pre : List Int) :
    ∀ (progID : Int) (tr : List Event), noneQualifies env ap oldID pre tr = true →
      qualifies env ap oldID (tr ++ pre.map (attachEvent ap oldID)) m = true →
      attachLoop env ap oldID (pre ++ m :: post) progID tr =
        (((env.AttachXDP (tr ++ pre.map (attachEvent ap oldID)) ap.Iface ap.ProgramName oldID
            (attachFlags m)).1, true),
          tr ++ (pre ++ [m]).map (attachEvent ap oldID)) := by
  induction pre with
  | nil =>
    intro progID tr _ hq
    simp only [List.map_nil, List.append_nil] at hq
    have hcond : ((env.AttachXDP tr ap.Iface ap.ProgramName oldID (attachFlags m)).2.isSome
        || (env.AttachXDP tr ap.Iface ap.ProgramName oldID (attachFlags m)).1 == DetachedID
        || (env.AttachXDP tr ap.Iface ap.ProgramName oldID (attachFlags m)).1 == oldID) = false := by
      simp only [qualifies] at hq
      cases h2 : (env.AttachXDP tr ap.Iface ap.ProgramName oldID (attachFlags m)).2 <;>
        simp_all
    simp [attachLoop, hcond, attachEvent]
  | cons mode rest ih =>
    intro progID tr h hq
    simp only [noneQualifies, Bool.and_eq_true, Bool.not_eq_true'] at h
    obtain ⟨hq0, hrest⟩ := h
    have hcond : ((env.AttachXDP tr ap.Iface ap.ProgramName oldID (attachFlags mode)).2.isSome
        || (env.AttachXDP tr ap.Iface ap.ProgramName oldID (attachFlags mode)).1 == DetachedID
        || (env.AttachXDP tr ap.Iface ap.ProgramName oldID (attachFlags mode)).1 == oldID) = true := by
      simp only [qualifies] at hq0
      cases h2 : (env.AttachXDP tr ap.Iface ap.ProgramName oldID (attachFlags mode)).2 <;>
        simp_all
      by_cases h0 : (env.AttachXDP tr ap.Iface ap.ProgramName oldID (attachFlags mode)).1 = DetachedID
      · exact Or.inl h0
      · exact Or.inr (hq0 h0)
    have hq2 : qualifies env ap oldID
        ((tr ++ [attachEvent ap oldID mode]) ++ rest.map (attachEvent ap oldID)) m = true := by
      simpa using hq
    have ih2 := ih (env.AttachXDP tr ap.Iface ap.ProgramName oldID (attachFlags mode)).1
      (tr ++ [attachEvent ap oldID mode]) hrest hq2
    simp only [List.cons_append, attachLoop, hcond, if_true]
    simpa [attachEvent] using ih2

/-- The modes of a list either all fail to qualify, or there is a first mode that qualifies. -/
theorem attach_first_decisive (env : Env) (ap : AttachPoint) (oldID : Int) (modes : List Int) :
    ∀ tr : List Event, noneQualifies env ap oldID modes tr = true ∨
      ∃ (pre : List Int) (m : Int) (post : List Int), modes = pre ++ m :: post ∧
        noneQualifies env ap oldID pre tr = true ∧
        qualifies env ap oldID (tr ++ pre.map (attachEvent ap oldID)) m = true := by
  induction modes with
  | nil => intro tr; exact Or.inl rfl
  | cons mode rest ih =>
    intro tr
    by_cases hq : qualifies env ap oldID tr mode = true
    · exact Or.inr ⟨[], mode, rest, rfl, rfl, by simpa using hq⟩
    · rcases ih (tr ++ [attachEvent ap oldID mode]) with hall | ⟨pre, m, post, hm, hpre, hqm⟩
      · exact Or.inl (by simp [noneQualifies, hq, hall])
      · refine Or.inr ⟨mode :: pre, m, post, by simp [hm], by simp [noneQualifies, hq, hpre], ?_⟩
        simpa [List.append_assoc] using hqm

/-- C1: in `AttachProgram`, once the object is open and configured, the idempotency check
has not short-circuited, the load has succeeded and `oldID` has been read (leaving the
trace `tr5`): if the modes split as `pre ++ m :: post` where no mode of `pre` qualifies and
`m` does, the result is the ID returned for `m` with no error, and the attach calls made are
exactly those for `pre` and `m`, in order, none for `post`; if no mode qualifies (the empty
list included), every mode is attempted once in order and the result is `-1` with an error;
and one of the two cases always applies. -/
theorem AttachProgram_first_qualifying_mode (env : Env) (ap : AttachPoint)
    (tr tr2 tr3 tr5 : List Event) (obj : Obj) (x oldID : Int)
    (hopen : env.OpenObject tr (env.Join env.ObjectDir "xdp_preamble.o") = .ok obj)
    (hconf : configureMaps env ap obj.maps
      (tr ++ [Event.OpenObject (env.Join env.ObjectDir "xdp_preamble.o")]) = (none, tr2))
    (hnot : ap.AlreadyAttached env tr2 (env.Join env.ObjectDir "xdp_preamble.o") = ((x, false), tr3))
    (hload : env.Load tr3 = none)
    (hold : ap.ProgramID env (tr3 ++ [Event.Load]) = ((oldID, none), tr5)) :
    (∀ (pre : List Int) (m : Int) (post : List Int), ap.Modes = pre ++ m :: post →
      noneQualifies env ap oldID pre tr5 = true →
      qualifies env ap oldID (tr5 ++ pre.map (attachEvent ap oldID)) m = true →
      ap.AttachProgram env tr =
        (((env.AttachXDP (tr5 ++ pre.map (attachEvent ap oldID)) ap.Iface ap.ProgramName oldID
            (attachFlags m)).1, none),
          tr5 ++ (pre ++ [m]).map (attachEvent ap oldID) ++ [Event.Close])) ∧
    (noneQualifies env ap oldID ap.Modes tr5 = true →
      ∃ err, ap.AttachProgram env tr =
        ((-1, some err), tr5 ++ ap.Modes.map (attachEvent ap oldID) ++ [Event.Close])) ∧
    (noneQualifies env ap oldID ap.Modes tr5 = true ∨
      ∃ (pre : List Int) (m : Int) (post : List Int), ap.Modes = pre ++ m :: post ∧
        noneQualifies env ap oldID pre tr5 = true ∧
        qualifies env ap oldID (tr5 ++ pre.map (attachEvent ap oldID)) m = true) := by
  refine ⟨?_, ?_, attach_first_decisive env ap oldID ap.Modes tr5⟩
  · intro pre m post hm hpre hq
    have hl := attachLoop_first env ap oldID m post pre x tr5 hpre hq
    simp only [AttachPoint.AttachProgram, hopen, attachOpened, hconf, hnot, hload, hold, hm, hl]
    simp
  · intro hnone
    have hl := attachLoop_none env ap oldID ap.Modes x tr5 hnone
    refine ⟨Error.errorfNil "failed to attach XDP program with program name %v to interface %v", ?_⟩
    simp only [AttachPoint.AttachProgram, hopen, attachOpened, hconf, hnot, hload, hold]
    simp [hl.1, hl.2]

/-- Witness for C1: modes `[4, 2]` where the attach call is rejected in mode 4 and accepted
in mode 2 with program 7. -/
theorem AttachProgram_first_qualifying_mode_witness :
    demoAp.AttachProgram demoEnv [] =
      ((7, none),
        [Event.OpenObject "/usr/lib/calico/bpf/xdp_preamble.o",
         Event.XDPSetGlobals { Name := ".rodata", MapType := 2, IsMapInternal := true }
           { IfaceName := [101, 116, 104, 48, 45, 45, 45, 45, 45, 45, 45, 45, 45, 45, 45],
             Jumps := [0, 7, 2, 3, 0, 0, 0, 0, 0, 0, 0, 0, 0, 0, 0, 0] },
         Event.SetPinPath { Name := "cali_state", MapType := 6, IsMapInternal := false }
           "/sys/fs/bpf/xdp/globals/cali_state",
         Event.GetXDPProgramID [101, 116, 104, 48],
         Event.GetXDPProgramID [101, 116, 104, 48],
         Event.AlreadyAttachedProg [101, 116, 104, 48] "/usr/lib/calico/bpf/xdp_preamble.o" 0,
         Event.Load,
         Event.GetXDPProgramID [101, 116, 104, 48],
         Event.AttachXDP [101, 116, 104, 48] "cali_xdp_preamble" 0 20,
         Event.AttachXDP [101, 116, 104, 48] "cali_xdp_preamble" 0 18,
         Event.Close]) :=
  (AttachProgram_first_qualifying_mode demoEnv demoAp [] _ _ _ _ (-1) 0
    rfl rfl rfl rfl rfl).1 [4] 2 [] rfl (by decide) (by decide)

/-! ## The idempotency shortcut of `AttachProgram` -/

theorem configureMaps_events (env : Env) (ap : AttachPoint) (maps : List Map) :
    ∀ tr : List Event, ∃ evs : List Event,
      (configureMaps env ap maps tr).2 = tr ++ evs ∧ ∀ e ∈ evs, e.isMapSetup = true := by
  induction maps with
  | nil => intro tr; exact ⟨[], by simp [configureMaps]⟩
  | cons m ms ih =>
    intro tr
    unfold configureMaps
    by_cases hint : m.IsMapInternal = true
    · by_cases hrange : env.ProgIndexEnd ≤ env.JumpsLen ∧ env.ProgIndexPolicy < env.JumpsLen
      · simp only [hint, hrange, if_true, and_self]
        cases hs : env.XDPSetGlobals tr m
            { buildGlobals env ap with IfaceName := copy dashes ap.Iface } with
        | some err =>
          refine ⟨[Event.XDPSetGlobals m
            { buildGlobals env ap with IfaceName := copy dashes ap.Iface }], ?_⟩
          simp [ConfigureProgram, hs, Event.isMapSetup]
        | none =>
          obtain ⟨evs, h1, h2⟩ := ih (tr ++ [Event.XDPSetGlobals m
            { buildGlobals env ap with IfaceName := copy dashes ap.Iface }])
          refine ⟨Event.XDPSetGlobals m
            { buildGlobals env ap with IfaceName := copy dashes ap.Iface } :: evs, ?_⟩
          simp only [ConfigureProgram, hs]
          refine ⟨by simpa using h1, ?_⟩
          intro e he
          rcases List.mem_cons.mp he with rfl | he
          · rfl
          · exact h2 e he
      · exact ⟨[], by simp [hint, hrange]⟩
    · simp only [hint, Bool.false_eq_true, if_false]
      cases hs : env.SetPinPath tr m
          (env.Join (env.MapPinDir m.MapType m.Name ap.Iface Hook.XDP) m.Name) with
      | some err =>
        refine ⟨[Event.SetPinPath m
          (env.Join (env.MapPinDir m.MapType m.Name ap.Iface Hook.XDP) m.Name)], ?_⟩
        simp [Event.isMapSetup]
      | none =>
        obtain ⟨evs, h1, h2⟩ := ih (tr ++ [Event.SetPinPath m
          (env.Join (env.MapPinDir m.MapType m.Name ap.Iface Hook.XDP) m.Name)])
        refine ⟨Event.SetPinPath m
          (env.Join (env.MapPinDir m.MapType m.Name ap.Iface Hook.XDP) m.Name) :: evs, ?_⟩
        refine ⟨by simpa using h1, ?_⟩
        intro e he
        rcases List.mem_cons.mp he with rfl | he
        · rfl
        · exact h2 e he

/-- When `AlreadyAttached` answers `true`, it has made exactly three calls: two kernel
queries and the ownership check on the ID read by the first, which is the ID it returns. -/
theorem AlreadyAttached_true_trace (env : Env) (ap : AttachPoint) (tr tr3 : List Event)
    (object : String) (id : Int)
    (h : ap.AlreadyAttached env tr object = ((id, true), tr3)) :
    tr3 = tr ++ [Event.GetXDPProgramID ap.Iface, Event.GetXDPProgramID ap.Iface,
      Event.AlreadyAttachedProg ap.Iface object id] ∧
    env.GetXDPProgramID tr ap.Iface = (id, none) := by
  unfold AttachPoint.AlreadyAttached AttachPoint.IsAttached AttachPoint.ProgramID at h
  cases h1 : (env.GetXDPProgramID tr ap.Iface).2 with
  | some e => simp [h1] at h
  | none =>
    cases h2 : (env.GetXDPProgramID (tr ++ [Event.GetXDPProgramID ap.Iface]) ap.Iface).2 with
    | some e => simp [h1, h2] at h
    | none =>
      simp only [h1, h2] at h
      split at h
      · simp at h
      · split at h
        · simp only [Prod.mk.injEq] at h
          obtain ⟨⟨hid, _⟩, htr⟩ := h
          refine ⟨?_, ?_⟩
          · rw [← htr, hid]; simp
          · rw [← hid, ← h1]
        · simp at h

/-- C2: if opening the object and configuring / pinning its maps succeeded and
`AlreadyAttached` reports `(id, true)`, then `AttachProgram` returns `(id, nil)` and none of
the calls it has made is a load of the object or an attach call. -/
theorem AttachProgram_already_attached_shortcut (env : Env) (ap : AttachPoint)
    (tr tr2 tr3 : List Event) (obj : Obj) (id : Int)
    (hopen : env.OpenObject tr (env.Join env.ObjectDir "xdp_preamble.o") = .ok obj)
    (hconf : configureMaps env ap obj.maps
      (tr ++ [Event.OpenObject (env.Join env.ObjectDir "xdp_preamble.o")]) = (none, tr2))
    (hyes : ap.AlreadyAttached env tr2 (env.Join env.ObjectDir "xdp_preamble.o") = ((id, true), tr3)) :
    (ap.AttachProgram env tr).1 = (id, none) ∧
    ∃ evs : List Event, (ap.AttachProgram env tr).2 = tr ++ evs ∧
      ∀ e ∈ evs, e.isLoad = false ∧ e.isAttachXDP = false := by
  obtain ⟨cevs, hc1, hc2⟩ := configureMaps_events env ap obj.maps
    (tr ++ [Event.OpenObject (env.Join env.ObjectDir "xdp_preamble.o")])
  rw [hconf] at hc1
  simp only at hc1
  obtain ⟨ha, _⟩ := AlreadyAttached_true_trace env ap tr2 tr3 _ id hyes
  have hrun : ap.AttachProgram env tr = ((id, none), tr3 ++ [Event.Close]) := by
    simp only [AttachPoint.AttachProgram, hopen, attachOpened, hconf, hyes]
    simp
  refine ⟨by rw [hrun], ?_⟩
  refine ⟨[Event.OpenObject (env.Join env.ObjectDir "xdp_preamble.o")] ++ cevs ++
    [Event.GetXDPProgramID ap.Iface, Event.GetXDPProgramID ap.Iface,
      Event.AlreadyAttachedProg ap.Iface (env.Join env.ObjectDir "xdp_preamble.o") id] ++
    [Event.Close], ?_, ?_⟩
  · rw [hrun, ha, hc1]; simp
  · intro e he
    simp only [List.mem_append, List.mem_singleton, List.mem_cons, List.not_mem_nil, or_false] at he
    rcases he with ((rfl | he) | (rfl | rfl | rfl)) | rfl
    · exact ⟨rfl, rfl⟩
    · have := hc2 e he
      cases e <;> simp_all [Event.isMapSetup, Event.isLoad, Event.isAttachXDP]
    · exact ⟨rfl, rfl⟩
    · exact ⟨rfl, rfl⟩
    · exact ⟨rfl, rfl⟩
    · exact ⟨rfl, rfl⟩

/-- Witness for C2: program 7 is attached and recorded as ours. -/
theorem AttachProgram_already_attached_shortcut_witness :
    (demoAp.AttachProgram attachedEnv []).1 = (7, none) ∧
    ∃ evs : List Event, (demoAp.AttachProgram attachedEnv []).2 = [] ++ evs ∧
      ∀ e ∈ evs, e.isLoad = false ∧ e.isAttachXDP = false :=
  AttachProgram_already_attached_shortcut attachedEnv demoAp [] _ _ _ 7 rfl rfl rfl

/-! ## `DetachProgram`: the guards before the mode loop -/

/-- C3: when the kernel query reports a non-zero program ID and the ownership check for
that ID either returns an error or reports that the program is not ours, `DetachProgram`
returns an error and has made exactly two calls, the kernel query and the ownership check:
no detach call in any mode and no deletion of the attachment record. -/
theorem DetachProgram_refuses_foreign (env : Env) (ap : AttachPoint) (tr : List Event)
    (progID : Int)
    (hid : env.GetXDPProgramID tr ap.Iface = (progID, none))
    (hne : progID ≠ 0)
    (hown : (env.AlreadyAttachedProg (tr ++ [Event.GetXDPProgramID ap.Iface]) ap
        (env.Join env.ObjectDir (ap.FileName env)) progID).2.isSome = true ∨
      (env.AlreadyAttachedProg (tr ++ [Event.GetXDPProgramID ap.Iface]) ap
        (env.Join env.ObjectDir (ap.FileName env)) progID).1 = false) :
    ∃ err : Error, ap.DetachProgram env tr =
      (some err, tr ++ [Event.GetXDPProgramID ap.Iface,
        Event.AlreadyAttachedProg ap.Iface (env.Join env.ObjectDir (ap.FileName env)) progID]) := by
  have hcond : ((env.AlreadyAttachedProg (tr ++ [Event.GetXDPProgramID ap.Iface]) ap
        (env.Join env.ObjectDir (ap.FileName env)) progID).2.isSome ||
      !(env.AlreadyAttachedProg (tr ++ [Event.GetXDPProgramID ap.Iface]) ap
        (env.Join env.ObjectDir (ap.FileName env)) progID).1) = true := by
    rcases hown with h | h <;> simp [h]
  have hz : (progID == DetachedID) = false := by simpa [DetachedID] using hne
  refine ⟨Errorf "XDP expected program ID does match with current one: %w"
    (env.AlreadyAttachedProg (tr ++ [Event.GetXDPProgramID ap.Iface]) ap
        (env.Join env.ObjectDir (ap.FileName env)) progID).2, ?_⟩
  simp only [AttachPoint.DetachProgram, AttachPoint.ProgramID, hid, hz, hcond]
  simp

/-- Witness for C3: program 9 is attached and the record store knows only program 7. -/
theorem DetachProgram_refuses_foreign_witness :
    ∃ err : Error, demoAp.DetachProgram
        { attachedEnv with GetXDPProgramID := fun _ _ => (9, none) } [] =
      (some err, [] ++ [Event.GetXDPProgramID [101, 116, 104, 48],
        Event.AlreadyAttachedProg [101, 116, 104, 48] "/usr/lib/calico/bpf/xdp_debug.o" 9]) :=
  DetachProgram_refuses_foreign { attachedEnv with GetXDPProgramID := fun _ _ => (9, none) }
    demoAp [] 9 rfl (by decide) (Or.inr rfl)

/-- C4: when the kernel query reports program ID 0, `DetachProgram` returns nil and the
kernel query is the only call it has made: no detach call, no ownership check, no access
to the attachment record store. -/
theorem DetachProgram_nothing_attached (env : Env) (ap : AttachPoint) (tr : List Event)
    (hid : env.GetXDPProgramID tr ap.Iface = (0, none)) :
    ap.DetachProgram env tr = (none, tr ++ [Event.GetXDPProgramID ap.Iface]) := by
  simp [AttachPoint.DetachProgram, AttachPoint.ProgramID, hid, DetachedID]

/-- Witness for C4: nothing is attached in the world `demoEnv` at the start. -/
theorem DetachProgram_nothing_attached_witness :
    demoAp.DetachProgram demoEnv [] = (none, [] ++ [Event.GetXDPProgramID [101, 116, 104, 48]]) :=
  DetachProgram_nothing_attached demoEnv demoAp [] rfl

/-! ## The mode loop of `DetachProgram` -/

theorem detachLoop_cons_keeps (env : Env) (ap : AttachPoint) (tr : List Event) (mode : Int)
    (rest : List Int) (h : keeps env ap tr mode = true) :
    detachLoop env ap (mode :: rest) tr =
      detachLoop env ap rest (tr ++ detachCalls env ap tr mode) := by
  unfold keeps at h
  unfold detachCalls
  rw [detachLoop]
  cases hd : env.DetachXDP tr ap.Iface (uintOf mode) with
  | some e => simp [detachEvent]
  | none =>
    simp only [hd, Option.isSome_none, Bool.false_or, Bool.and_eq_true, bne_iff_ne] at h
    obtain ⟨h1, h2⟩ := h
    have h1n : (env.GetXDPProgramID (tr ++ [Event.DetachXDP ap.Iface (uintOf mode)]) ap.Iface).2
        = none := by
      simpa [detachEvent] using h1
    have h2n : ((env.GetXDPProgramID (tr ++ [Event.DetachXDP ap.Iface (uintOf mode)]) ap.Iface).1
        == DetachedID) = false := by
      simpa [detachEvent, DetachedID] using h2
    simp [AttachPoint.ProgramID, h1n, h2n, detachEvent]

theorem detachLoop_cons_removes (env : Env) (ap : AttachPoint) (tr : List Event) (mode : Int)
    (rest : List Int) (h : removes env ap tr mode = true) :
    detachLoop env ap (mode :: rest) tr =
      ((none, true), tr ++ [detachEvent ap mode, Event.GetXDPProgramID ap.Iface]) := by
  unfold removes at h
  rw [detachLoop]
  simp only [Bool.and_eq_true, Option.isNone_iff_eq_none, beq_iff_eq] at h
  obtain ⟨hd, h1, h2⟩ := h
  have h1n : (env.GetXDPProgramID (tr ++ [Event.DetachXDP ap.Iface (uintOf mode)]) ap.Iface).2
      = none := by
    simpa [detachEvent] using h1
  have h2n : ((env.GetXDPProgramID (tr ++ [Event.DetachXDP ap.Iface (uintOf mode)]) ap.Iface).1
      == DetachedID) = true := by
    simpa [detachEvent, DetachedID] using h2
  simp [hd, AttachPoint.ProgramID, h1n, h2n, detachEvent]

theorem detachLoop_cons_fails (env : Env) (ap : AttachPoint) (tr : List Event) (mode : Int)
    (rest : List Int) (e : Error) (h : rereadError env ap tr mode = some e) :
    detachLoop env ap (mode :: rest) tr =
      ((some (Error.errorf "failed to get the attached XDP program ID: %w"
          (Error.errorf "Couldn't check for XDP program on iface %v: %w" e)), false),
        tr ++ [detachEvent ap mode, Event.GetXDPProgramID ap.Iface]) := by
  unfold rereadError at h
  rw [detachLoop]
  cases hd : env.DetachXDP tr ap.Iface (uintOf mode) with
  | some e2 => simp [hd] at h
  | none =>
    simp only [hd, Option.isNone_none, if_true] at h
    have h1n : (env.GetXDPProgramID (tr ++ [Event.DetachXDP ap.Iface (uintOf mode)]) ap.Iface).2
        = some e := by
      simpa [detachEvent] using h
    simp [AttachPoint.ProgramID, h1n, detachEvent]

theorem detach_trichotomy (env : Env) (ap : AttachPoint) (tr : List Event) (mode : Int) :
    keeps env ap tr mode = true ∨ removes env ap tr mode = true ∨
      ∃ e, rereadError env ap tr mode = some e := by
  unfold keeps removes rereadError
  cases hd : env.DetachXDP tr ap.Iface (uintOf mode) with
  | some e2 => simp
  | none =>
    cases h1 : (env.GetXDPProgramID (tr ++ [detachEvent ap mode]) ap.Iface).2 with
    | some e => simp
    | none =>
      by_cases h2 : (env.GetXDPProgramID (tr ++ [detachEvent ap mode]) ap.Iface).1 = 0
      · simp [h2]
      · simp [h2]

theorem detachLoop_allKeep (env : Env) (ap : AttachPoint) (modes : List Int) :
    ∀ tr : List Event, allKeep env ap modes tr = true →
      detachLoop env ap modes tr = ((none, false), tr ++ allCalls env ap modes tr) := by
  induction modes with
  | nil => intro tr _; simp [detachLoop, allCalls]
  | cons mode rest ih =>
    intro tr h
    simp only [allKeep, Bool.and_eq_true] at h
    rw [detachLoop_cons_keeps env ap tr mode rest h.1, ih _ h.2]
    simp [allCalls]

theorem detachLoop_first_removes (env : Env) (ap : AttachPoint) (m : Int) (post : List Int)
    (pre : List Int) :
    ∀ tr : List Event, allKeep env ap pre tr = true →
      removes env ap (tr ++ allCalls env ap pre tr) m = true →
      detachLoop env ap (pre ++ m :: post) tr =
        ((none, true), tr ++ allCalls env ap pre tr ++
          [detachEvent ap m, Event.GetXDPProgramID ap.Iface]) := by
  induction pre with
  | nil =>
    intro tr _ hr
    simp only [allCalls, List.append_nil] at hr
    simpa [allCalls] using detachLoop_cons_removes env ap tr m post hr
  | cons mode rest ih =>
    intro tr h hr
    simp only [allKeep, Bool.and_eq_true] at h
    simp only [allCalls, ← List.append_assoc] at hr
    rw [List.cons_append, detachLoop_cons_keeps env ap tr mode _ h.1, ih _ h.2 hr]
    simp [allCalls]

theorem detachLoop_first_fails (env : Env) (ap : AttachPoint) (m : Int) (post : List Int)
    (e : Error) (pre : List Int) :
    ∀ tr : List Event, allKeep env ap pre tr = true →
      rereadError env ap (tr ++ allCalls env ap pre tr) m = some e →
      detachLoop env ap (pre ++ m :: post) tr =
        ((some (Error.errorf "failed to get the attached XDP program ID: %w"
            (Error.errorf "Couldn't check for XDP program on iface %v: %w" e)), false),
          tr ++ allCalls env ap pre tr ++
            [detachEvent ap m, Event.GetXDPProgramID ap.Iface]) := by
  induction pre with
  | nil =>
    intro tr _ hr
    simp only [allCalls, List.append_nil] at hr
    simpa [allCalls] using detachLoop_cons_fails env ap tr m post e hr
  | cons mode rest ih =>
    intro tr h hr
    simp only [allKeep, Bool.and_eq_true] at h
    simp only [allCalls, ← List.append_assoc] at hr
    rw [List.cons_append, detachLoop_cons_keeps env ap tr mode _ h.1, ih _ h.2 hr]
    simp [allCalls]

/-- The modes of a list either all leave the program in place, or there is a first mode that
does not: it removes the program or its re-read of the program ID fails. -/
theorem detach_first_decisive (env : Env) (ap : AttachPoint) (modes : List Int) :
    ∀ tr : List Event, allKeep env ap modes tr = true ∨
      ∃ (pre : List Int) (m : Int) (post : List Int), modes = pre ++ m :: post ∧
        allKeep env ap pre tr = true ∧
        (removes env ap (tr ++ allCalls env ap pre tr) m = true ∨
          ∃ e, rereadError env ap (tr ++ allCalls env ap pre tr) m = some e) := by
  induction modes with
  | nil => intro tr; exact Or.inl rfl
  | cons mode rest ih =>
    intro tr
    rcases detach_trichotomy env ap tr mode with hk | hrf
    · rcases ih (tr ++ detachCalls env ap tr mode) with hall | ⟨pre, m, post, hm, hpre, hdec⟩
      · exact Or.inl (by simp [allKeep, hk, hall])
      · refine Or.inr ⟨mode :: pre, m, post, by simp [hm], by simp [allKeep, hk, hpre], ?_⟩
        simpa [allCalls, List.append_assoc] using hdec
    · exact Or.inr ⟨[], mode, rest, rfl, rfl, by simpa [allCalls] using hrf⟩

theorem allCalls_no_forget (env : Env) (ap : AttachPoint) (modes : List Int) :
    ∀ tr : List Event, ∀ e ∈ allCalls env ap modes tr, e.isForget = false := by
  induction modes with
  | nil => intro tr e he; simp [allCalls] at he
  | cons mode rest ih =>
    intro tr e he
    simp only [allCalls, List.mem_append] at he
    rcases he with he | he
    · unfold detachCalls at he
      split at he <;> simp [detachEvent] at he <;> rcases he with rfl | rfl <;> rfl
    · exact ih _ e he

/-! ## `DetachProgram` after the ownership check -/

/-- C5, as amended: when the current program ID is non-zero and verified as ours (leaving the
trace `tr1`), the modes are tried in list order and the loop stops at the first mode that
removes the program (detach call without error, program ID re-read as 0) or whose re-read of
the program ID fails.
(1) If the first such mode removes the program, the record is deleted and the result is nil
when the deletion succeeds and an error when it fails.
(2) If every mode leaves the program in place (the empty list included), the result is the
"couldn't remove" error and the record is not deleted.
(3) If the re-read fails, the result is the "failed to get the attached XDP program ID"
error, later modes are not tried and the record is not deleted.
(4) The result is nil if and only if some mode removed the program and the deletion of the
record succeeded.
(5) One of the cases (1), (2), (3) always applies. -/
theorem DetachProgram_modes (env : Env) (ap : AttachPoint) (tr tr1 : List Event) (progID : Int)
    (hid : env.GetXDPProgramID tr ap.Iface = (progID, none))
    (hne : progID ≠ 0)
    (hown : env.AlreadyAttachedProg (tr ++ [Event.GetXDPProgramID ap.Iface]) ap
        (env.Join env.ObjectDir (ap.FileName env)) progID = (true, none))
    (htr1 : tr1 = tr ++ [Event.GetXDPProgramID ap.Iface,
        Event.AlreadyAttachedProg ap.Iface (env.Join env.ObjectDir (ap.FileName env)) progID]) :
    (∀ (pre : List Int) (m : Int) (post : List Int), ap.Modes = pre ++ m :: post →
      allKeep env ap pre tr1 = true →
      removes env ap (tr1 ++ allCalls env ap pre tr1) m = true →
      ap.DetachProgram env tr =
        ((env.ForgetAttachedProg
            (tr1 ++ allCalls env ap pre tr1 ++ [detachEvent ap m, Event.GetXDPProgramID ap.Iface])
            ap.Iface Hook.XDP).map
          (Error.errorf "failed to delete hash of BPF program from disk: %w"),
         tr1 ++ allCalls env ap pre tr1 ++ [detachEvent ap m, Event.GetXDPProgramID ap.Iface] ++
           [Event.ForgetAttachedProg ap.Iface Hook.XDP])) ∧
    (allKeep env ap ap.Modes tr1 = true →
      ap.DetachProgram env tr =
        (some (Error.errorfNil "couldn't remove our XDP program. program ID: %v"),
         tr1 ++ allCalls env ap ap.Modes tr1) ∧
      ∀ e ∈ allCalls env ap ap.Modes tr1, e.isForget = false) ∧
    (∀ (pre : List Int) (m : Int) (post : List Int) (err : Error), ap.Modes = pre ++ m :: post →
      allKeep env ap pre tr1 = true →
      rereadError env ap (tr1 ++ allCalls env ap pre tr1) m = some err →
      ap.DetachProgram env tr =
        (some (Error.errorf "failed to get the attached XDP program ID: %w"
          (Error.errorf "Couldn't check for XDP program on iface %v: %w" err)),
         tr1 ++ allCalls env ap pre tr1 ++ [detachEvent ap m, Event.GetXDPProgramID ap.Iface]) ∧
      ∀ e ∈ allCalls env ap pre tr1 ++ [detachEvent ap m, Event.GetXDPProgramID ap.Iface],
        e.isForget = false) ∧
    ((ap.DetachProgram env tr).1 = none ↔
      ∃ (pre : List Int) (m : Int) (post : List Int), ap.Modes = pre ++ m :: post ∧
        allKeep env ap pre tr1 = true ∧
        removes env ap (tr1 ++ allCalls env ap pre tr1) m = true ∧
        env.ForgetAttachedProg
          (tr1 ++ allCalls env ap pre tr1 ++ [detachEvent ap m, Event.GetXDPProgramID ap.Iface])
          ap.Iface Hook.XDP = none) ∧
    (allKeep env ap ap.Modes tr1 = true ∨
      ∃ (pre : List Int) (m : Int) (post : List Int), ap.Modes = pre ++ m :: post ∧
        allKeep env ap pre tr1 = true ∧
        (removes env ap (tr1 ++ allCalls env ap pre tr1) m = true ∨
          ∃ e, rereadError env ap (tr1 ++ allCalls env ap pre tr1) m = some e)) := by
  have hz : (progID == DetachedID) = false := by simpa [DetachedID] using hne
  have hrun : ap.DetachProgram env tr =
      (match (detachLoop env ap ap.Modes tr1).1.1 with
        | some err => (some err, (detachLoop env ap ap.Modes tr1).2)
        | none =>
          if !(detachLoop env ap ap.Modes tr1).1.2 then
            (some (Error.errorfNil "couldn't remove our XDP program. program ID: %v"),
              (detachLoop env ap ap.Modes tr1).2)
          else
            ((env.ForgetAttachedProg (detachLoop env ap ap.Modes tr1).2 ap.Iface Hook.XDP).map
                (Error.errorf "failed to delete hash of BPF program from disk: %w"),
              (detachLoop env ap ap.Modes tr1).2 ++
                [Event.ForgetAttachedProg ap.Iface Hook.XDP])) := by
    subst htr1
    simp only [AttachPoint.DetachProgram, AttachPoint.ProgramID, hid, hz, hown,
      AttachPoint.IfaceName]
    simp only [Option.isSome_none, Bool.not_true, Bool.or_self, Bool.false_eq_true, if_false,
      List.append_assoc, List.singleton_append]
    cases (detachLoop env ap ap.Modes _).1.1 with
    | some err => rfl
    | none =>
      simp only
      split
      · rfl
      · cases env.ForgetAttachedProg _ ap.Iface Hook.XDP <;> rfl
  have h1 : ∀ (pre : List Int) (m : Int) (post : List Int), ap.Modes = pre ++ m :: post →
      allKeep env ap pre tr1 = true →
      removes env ap (tr1 ++ allCalls env ap pre tr1) m = true →
      ap.DetachProgram env tr =
        ((env.ForgetAttachedProg
            (tr1 ++ allCalls env ap pre tr1 ++ [detachEvent ap m, Event.GetXDPProgramID ap.Iface])
            ap.Iface Hook.XDP).map
          (Error.errorf "failed to delete hash of BPF program from disk: %w"),
         tr1 ++ allCalls env ap pre tr1 ++ [detachEvent ap m, Event.GetXDPProgramID ap.Iface] ++
           [Event.ForgetAttachedProg ap.Iface Hook.XDP]) := by
    intro pre m post hm hpre hrem
    rw [hrun, hm, detachLoop_first_removes env ap m post pre tr1 hpre hrem]
    simp
  have h2 : allKeep env ap ap.Modes tr1 = true →
      ap.DetachProgram env tr =
        (some (Error.errorfNil "couldn't remove our XDP program. program ID: %v"),
         tr1 ++ allCalls env ap ap.Modes tr1) := by
    intro hall
    rw [hrun, detachLoop_allKeep env ap ap.Modes tr1 hall]
    simp
  have h3 : ∀ (pre : List Int) (m : Int) (post : List Int) (err : Error),
      ap.Modes = pre ++ m :: post →
      allKeep env ap pre tr1 = true →
      rereadError env ap (tr1 ++ allCalls env ap pre tr1) m = some err →
      ap.DetachProgram env tr =
        (some (Error.errorf "failed to get the attached XDP program ID: %w"
          (Error.errorf "Couldn't check for XDP program on iface %v: %w" err)),
         tr1 ++ allCalls env ap pre tr1 ++ [detachEvent ap m, Event.GetXDPProgramID ap.Iface]) := by
    intro pre m post err hm hpre hfail
    rw [hrun, hm, detachLoop_first_fails env ap m post err pre tr1 hpre hfail]
  refine ⟨h1, fun hall => ⟨h2 hall, allCalls_no_forget env ap ap.Modes tr1⟩, ?_, ?_,
    detach_first_decisive env ap ap.Modes tr1⟩
  · intro pre m post err hm hpre hfail
    refine ⟨h3 pre m post err hm hpre hfail, ?_⟩
    intro e he
    rcases List.mem_append.mp he with he | he
    · exact allCalls_no_forget env ap pre tr1 e he
    · simp only [List.mem_cons, List.mem_singleton, List.not_mem_nil, or_false] at he
      rcases he with rfl | rfl <;> rfl
  · constructor
    · intro hnil
      rcases detach_first_decisive env ap ap.Modes tr1 with hall | ⟨pre, m, post, hm, hpre, hdec⟩
      · rw [h2 hall] at hnil
        simp at hnil
      · rcases hdec with hrem | ⟨err, hfail⟩
        · refine ⟨pre, m, post, hm, hpre, hrem, ?_⟩
          rw [h1 pre m post hm hpre hrem] at hnil
          simpa using hnil
        · rw [h3 pre m post err hm hpre hfail] at hnil
          simp at hnil
    · rintro ⟨pre, m, post, hm, hpre, hrem, hforget⟩
      rw [h1 pre m post hm hpre hrem, hforget]
      rfl

/-- Witness for C5: program 7 is attached and ours, mode 4 leaves it in place and mode 2
removes it; the record is then deleted. -/
theorem DetachProgram_modes_witness :
    demoAp.DetachProgram attachedEnv [] =
      (none,
        [Event.GetXDPProgramID [101, 116, 104, 48],
         Event.AlreadyAttachedProg [101, 116, 104, 48] "/usr/lib/calico/bpf/xdp_debug.o" 7,
         Event.DetachXDP [101, 116, 104, 48] 4,
         Event.GetXDPProgramID [101, 116, 104, 48],
         Event.DetachXDP [101, 116, 104, 48] 2,
         Event.GetXDPProgramID [101, 116, 104, 48],
         Event.ForgetAttachedProg [101, 116, 104, 48] Hook.XDP]) :=
  (DetachProgram_modes attachedEnv demoAp [] _ 7 rfl (by decide) rfl rfl).1 [4] 2 [] rfl
    (by decide) (by decide)

/-- Counterexample to C5 as stated: program 7 is attached and ours, no mode ever produces
ID 0, and the re-read after the first detach call fails: the result is not the
"couldn't remove" error but the error of the re-read, and mode 2 is never tried. -/
theorem DetachProgram_couldnt_remove_counterexample :
    rereadFailEnv.GetXDPProgramID [] demoAp.Iface = (7, none) ∧
    rereadFailEnv.AlreadyAttachedProg [Event.GetXDPProgramID demoAp.Iface] demoAp
      "/usr/lib/calico/bpf/xdp_debug.o" 7 = (true, none) ∧
    (∀ m ∈ demoAp.Modes, ∀ tr : List Event, removes rereadFailEnv demoAp tr m = false) ∧
    demoAp.DetachProgram rereadFailEnv [] =
      (some (Error.errorf "failed to get the attached XDP program ID: %w"
        (Error.errorf "Couldn't check for XDP program on iface %v: %w" (Error.ext 19))),
        [Event.GetXDPProgramID [101, 116, 104, 48],
         Event.AlreadyAttachedProg [101, 116, 104, 48] "/usr/lib/calico/bpf/xdp_debug.o" 7,
         Event.DetachXDP [101, 116, 104, 48] 4,
         Event.GetXDPProgramID [101, 116, 104, 48]]) ∧
    (demoAp.DetachProgram rereadFailEnv []).1 ≠
      some (Error.errorfNil "couldn't remove our XDP program. program ID: %v") := by
  refine ⟨rfl, rfl, ?_, rfl, by decide⟩
  intro m _ tr
  have hany : ∃ x ∈ tr ++ [detachEvent demoAp m], x.isDetachXDP = true :=
    ⟨detachEvent demoAp m, by simp, rfl⟩
  simp only [removes, rereadFailEnv, List.any_eq_true, Bool.and_eq_false_imp,
    Option.isNone_iff_eq_none, beq_eq_false_iff_ne]
  intro _ h2
  rw [if_pos hany] at h2
  simp at h2

/-! ## The attachment record after a successful attach -/

/-- C6 at its failing input: interface `eth0`, modes `[4, 2]`, the attach call rejected in
mode 4 and accepted in mode 2 with program 7.  `AttachProgram` returns `(7, nil)` after an
attach in mode 2, and none of the calls it has made writes an attachment record. -/
theorem AttachProgram_writes_no_record :
    (demoAp.AttachProgram demoEnv []).1 = (7, none) ∧
    Event.AttachXDP [101, 116, 104, 48] "cali_xdp_preamble" 0 18 ∈
      (demoAp.AttachProgram demoEnv []).2 ∧
    ((demoAp.AttachProgram demoEnv []).2.filter Event.isRemember).length = 0 := by
  decide

/-! ## `ConfigureProgram` and the interface name -/

theorem dashes_eq : dashes = List.replicate 15 45 := by decide

theorem copy_dashes_fit (iface : List UInt8) (h : iface.length ≤ 15) :
    copy dashes iface = iface ++ List.replicate (15 - iface.length) 45 := by
  have hl : dashes.length = 15 := by decide
  simp only [copy, hl, Nat.min_eq_right h]
  rw [List.take_of_length_le (le_refl _), dashes_eq, List.drop_replicate]

theorem copy_dashes_long (iface : List UInt8) (h : 15 ≤ iface.length) :
    copy dashes iface = iface.take 15 := by
  have hl : dashes.length = 15 := by decide
  simp only [copy, hl, Nat.min_eq_left h]
  rw [List.drop_of_length_le (by rw [hl]), List.append_nil]

/-- The record that `ConfigureProgram` hands to `XDPSetGlobals` is the one it received with
the interface name replaced by the filled buffer. -/
theorem ConfigureProgram_record (env : Env) (tr : List Event) (m : Map)
    (iface : List UInt8) (globalData : XDPGlobalData) :
    (ConfigureProgram env tr m iface globalData).1.2 =
      { globalData with IfaceName := copy dashes iface } := by
  cases hs : env.XDPSetGlobals tr m { globalData with IfaceName := copy dashes iface } <;>
    simp [ConfigureProgram, hs]

/-- The single call of `ConfigureProgram` is the write of that record. -/
theorem ConfigureProgram_trace (env : Env) (tr : List Event) (m : Map)
    (iface : List UInt8) (globalData : XDPGlobalData) :
    (ConfigureProgram env tr m iface globalData).2 =
      tr ++ [Event.XDPSetGlobals m (ConfigureProgram env tr m iface globalData).1.2] := by
  rw [ConfigureProgram_record]
  cases hs : env.XDPSetGlobals tr m { globalData with IfaceName := copy dashes iface } <;>
    simp [ConfigureProgram, hs]

/-- C7, as amended: `ConfigureProgram` makes one map write whatever the length of the name,
and returns an error only when that write fails; a name exactly 15 bytes long is written
unmodified as `IfaceName`; of a longer name the first 15 bytes are written. -/
theorem ConfigureProgram_name_width (env : Env) (tr : List Event) (m : Map)
    (iface : List UInt8) (globalData : XDPGlobalData) :
    (ConfigureProgram env tr m iface globalData).2 =
      tr ++ [Event.XDPSetGlobals m (ConfigureProgram env tr m iface globalData).1.2] ∧
    (ConfigureProgram env tr m iface globalData).1.1 =
      (env.XDPSetGlobals tr m (ConfigureProgram env tr m iface globalData).1.2).map
        (Error.errorf "failed to configure xdp: %w") ∧
    (iface.length = 15 →
      (ConfigureProgram env tr m iface globalData).1.2 = { globalData with IfaceName := iface }) ∧
    (15 < iface.length →
      (ConfigureProgram env tr m iface globalData).1.2 =
        { globalData with IfaceName := iface.take 15 }) := by
  have hrec := ConfigureProgram_record env tr m iface globalData
  refine ⟨ConfigureProgram_trace env tr m iface globalData, ?_, ?_, ?_⟩
  · rw [hrec]
    cases hs : env.XDPSetGlobals tr m { globalData with IfaceName := copy dashes iface } <;>
      simp [ConfigureProgram, hs]
  · intro h
    rw [hrec, copy_dashes_fit iface (le_of_eq h), h]
    simp
  · intro h
    rw [hrec, copy_dashes_long iface (le_of_lt h)]

/-- Witness for C7: the 15-byte name `abcdefghijklmno` is written unmodified. -/
theorem ConfigureProgram_name_width_witness :
    (ConfigureProgram demoEnv [] demoMap
        [97, 98, 99, 100, 101, 102, 103, 104, 105, 106, 107, 108, 109, 110, 111]
        (buildGlobals demoEnv demoAp)).1.2 =
      { buildGlobals demoEnv demoAp with
        IfaceName := [97, 98, 99, 100, 101, 102, 103, 104, 105, 106, 107, 108, 109, 110, 111] } :=
  (ConfigureProgram_name_width demoEnv [] demoMap
    [97, 98, 99, 100, 101, 102, 103, 104, 105, 106, 107, 108, 109, 110, 111]
    (buildGlobals demoEnv demoAp)).2.2.1 (by decide)

/-- Counterexample to C7 as stated: the 16-byte name `abcdefghijklmnop` is not rejected;
`ConfigureProgram` returns nil after one map write whose `IfaceName` is the name cut to its
first 15 bytes. -/
theorem ConfigureProgram_truncates_counterexample :
    ConfigureProgram demoEnv [] demoMap
        [97, 98, 99, 100, 101, 102, 103, 104, 105, 106, 107, 108, 109, 110, 111, 112]
        (buildGlobals demoEnv demoAp) =
      ((none, { IfaceName := [97, 98, 99, 100, 101, 102, 103, 104, 105, 106, 107, 108, 109, 110, 111],
                Jumps := [0, 7, 2, 3, 0, 0, 0, 0, 0, 0, 0, 0, 0, 0, 0, 0] }),
        [Event.XDPSetGlobals demoMap
          { IfaceName := [97, 98, 99, 100, 101, 102, 103, 104, 105, 106, 107, 108, 109, 110, 111],
            Jumps := [0, 7, 2, 3, 0, 0, 0, 0, 0, 0, 0, 0, 0, 0, 0, 0] }]) := by
  decide

/-! ## The global configuration record -/

/-- When its kernel query succeeds, `IsAttached` answers true whatever the program ID read,
the ID 0 of "nothing attached" included: the ID is dropped and the answer is `err == nil`. -/
theorem IsAttached_of_query_ok (env : Env) (ap : AttachPoint) (tr : List Event)
    (h : (env.GetXDPProgramID tr ap.Iface).2 = none) :
    (ap.IsAttached env tr).1 = (true, none) := by
  simp [AttachPoint.IsAttached, AttachPoint.ProgramID, h]

/-- The result of `AlreadyAttached`, case by case: `(-1, false)` whenever one of its three
sub-queries (the kernel query of `ProgramID`, the kernel query of `IsAttached`, the ownership
check `AlreadyAttachedProg` on the ID read first) returns an error; when none does,
`(progID, true)` if the ownership check answers true and `IsAttached` answered true, and
`(-1, false)` otherwise.  By `IsAttached_of_query_ok` the answer of `IsAttached` is then
always true, so the program ID plays no part in the result. -/
theorem AlreadyAttached_never_propagates (env : Env) (ap : AttachPoint) (tr : List Event)
    (object : String) :
    (((env.GetXDPProgramID tr ap.Iface).2.isSome = true ∨
      (env.GetXDPProgramID (tr ++ [Event.GetXDPProgramID ap.Iface]) ap.Iface).2.isSome = true ∨
      (env.AlreadyAttachedProg
        (tr ++ [Event.GetXDPProgramID ap.Iface] ++ [Event.GetXDPProgramID ap.Iface]) ap object
        (env.GetXDPProgramID tr ap.Iface).1).2.isSome = true) →
      (ap.AlreadyAttached env tr object).1 = (-1, false)) ∧
    ((env.GetXDPProgramID tr ap.Iface).2 = none →
      (env.GetXDPProgramID (tr ++ [Event.GetXDPProgramID ap.Iface]) ap.Iface).2 = none →
      (env.AlreadyAttachedProg
        (tr ++ [Event.GetXDPProgramID ap.Iface] ++ [Event.GetXDPProgramID ap.Iface]) ap object
        (env.GetXDPProgramID tr ap.Iface).1).2 = none →
      (ap.AlreadyAttached env tr object).1 =
        if ((env.AlreadyAttachedProg
              (tr ++ [Event.GetXDPProgramID ap.Iface] ++ [Event.GetXDPProgramID ap.Iface]) ap object
              (env.GetXDPProgramID tr ap.Iface).1).1 &&
            (ap.IsAttached env (tr ++ [Event.GetXDPProgramID ap.Iface])).1.1) = true
        then ((env.GetXDPProgramID tr ap.Iface).1, true) else (-1, false)) := by
  constructor
  · intro h
    cases h1 : (env.GetXDPProgramID tr ap.Iface).2 with
    | some e =>
      simp only [AttachPoint.AlreadyAttached, AttachPoint.IsAttached, AttachPoint.ProgramID, h1]
    | none =>
      cases h2 : (env.GetXDPProgramID (tr ++ [Event.GetXDPProgramID ap.Iface]) ap.Iface).2 with
      | some e =>
        simp only [AttachPoint.AlreadyAttached, AttachPoint.IsAttached, AttachPoint.ProgramID, h1,
          h2]
      | none =>
        simp only [h1, h2, Option.isSome_none, Bool.false_eq_true, false_or] at h
        cases h3 : (env.AlreadyAttachedProg
            (tr ++ [Event.GetXDPProgramID ap.Iface] ++ [Event.GetXDPProgramID ap.Iface]) ap object
            (env.GetXDPProgramID tr ap.Iface).1).2 with
        | some e =>
          simp only [AttachPoint.AlreadyAttached, AttachPoint.IsAttached, AttachPoint.ProgramID,
            h1, h2, h3]
        | none =>
          rw [h3] at h
          exact absurd h (by decide)
  · intro h1 h2 h3
    simp only [AttachPoint.AlreadyAttached, AttachPoint.IsAttached, AttachPoint.ProgramID, h1, h2,
      h3]
    simp only [Option.isNone_none, Bool.and_true]
    split <;> rfl

/-- An instance of the case without error: program 7 is attached and recorded as ours. -/
theorem AlreadyAttached_never_propagates_witness :
    (demoAp.AlreadyAttached attachedEnv [] "/usr/lib/calico/bpf/xdp_preamble.o").1 = (7, true) :=
  (AlreadyAttached_never_propagates attachedEnv demoAp []
    "/usr/lib/calico/bpf/xdp_preamble.o").2 rfl rfl rfl

/-- When no sub-query fails and the ownership check answers true, `AlreadyAttached` returns
the program ID read by its first query with `true`, whether or not that ID is 0. -/
theorem AlreadyAttached_of_ownership (env : Env) (ap : AttachPoint) (tr : List Event)
    (object : String)
    (h1 : (env.GetXDPProgramID tr ap.Iface).2 = none)
    (h2 : (env.GetXDPProgramID (tr ++ [Event.GetXDPProgramID ap.Iface]) ap.Iface).2 = none)
    (h3 : env.AlreadyAttachedProg
        (tr ++ [Event.GetXDPProgramID ap.Iface] ++ [Event.GetXDPProgramID ap.Iface]) ap object
        (env.GetXDPProgramID tr ap.Iface).1 = (true, none)) :
    (ap.AlreadyAttached env tr object).1 = ((env.GetXDPProgramID tr ap.Iface).1, true) := by
  simp only [AttachPoint.AlreadyAttached, AttachPoint.IsAttached, AttachPoint.ProgramID, h1, h2,
    h3]
  rfl

/-- C9 at its failing input: nothing is attached to `eth0`, so both kernel queries report
program ID 0 without error, and the ownership check answers true without error.  No
sub-query fails and nothing is attached, so the result should be `(-1, false)`; yet
`AlreadyAttached` returns `(0, true)` after its three calls. -/
theorem AlreadyAttached_true_with_nothing_attached :
    staleEnv.GetXDPProgramID [] demoAp.Iface = (0, none) ∧
    staleEnv.GetXDPProgramID [Event.GetXDPProgramID demoAp.Iface] demoAp.Iface = (0, none) ∧
    staleEnv.AlreadyAttachedProg
      [Event.GetXDPProgramID demoAp.Iface, Event.GetXDPProgramID demoAp.Iface] demoAp
      "/usr/lib/calico/bpf/xdp_preamble.o" 0 = (true, none) ∧
    demoAp.AlreadyAttached staleEnv [] "/usr/lib/calico/bpf/xdp_preamble.o" =
      ((0, true),
        [Event.GetXDPProgramID [101, 116, 104, 48],
         Event.GetXDPProgramID [101, 116, 104, 48],
         Event.AlreadyAttachedProg [101, 116, 104, 48] "/usr/lib/calico/bpf/xdp_preamble.o" 0]) ∧
    (demoAp.AlreadyAttached staleEnv [] "/usr/lib/calico/bpf/xdp_preamble.o").1 ≠ (-1, false) := by
  decide

/-- C10 at its failing input: nothing is attached to `eth0`, so the kernel query reports
program ID 0 without error.  `IsAttached` nevertheless answers true; with a record store that
answers that the program is ours, `AlreadyAttached` returns `(0, true)` and `AttachProgram`
returns the ID 0 as that of an attached program, without a load or an attach call. -/
theorem IsAttached_true_when_detached :
    demoEnv.GetXDPProgramID [] demoAp.Iface = (0, none) ∧
    (demoAp.IsAttached demoEnv []).1 = (true, none) ∧
    (demoAp.AlreadyAttached staleEnv [] "/usr/lib/calico/bpf/xdp_preamble.o").1 = (0, true) ∧
    (demoAp.AttachProgram staleEnv []).1 = (0, none) ∧
    ((demoAp.AttachProgram staleEnv []).2.filter
      (fun e => e.isLoad || e.isAttachXDP)).length = 0 := by
  decide

end Xdp

/-! # `writeDiags` and the bounds of `parts` -/

namespace Cluster

/-- The fields of a command line with repeated and surrounding blanks. -/
theorem Fields_example : Fields "  kubectl logs -n  kube-system pod c  " =
    ["kubectl", "logs", "-n", "kube-system", "pod", "c"] := by decide

/-- A command that runs successfully, with a non-empty filename and fewer than six fields,
makes `writeDiags` index `parts` out of range: at index 3 with fewer than four fields, at
index 5 with four or five; no file is written. -/
theorem writeDiags_few_fields (sys : Sys) (tr : List Effect) (cmds : diagCmd) (dir : String)
    (name : String) (args : List String)
    (hparts : Fields cmds.cmd = name :: args)
    (hrun : (sys.CombinedOutput tr name args).2 = none)
    (hfile : cmds.filename ≠ "")
    (hshort : args.length + 1 < 6) :
    writeDiags sys tr cmds dir =
      (Result.indexOutOfRange (if args.length + 1 < 4 then 3 else 5) (args.length + 1),
        tr ++ [Effect.CombinedOutput name args]) := by
  simp only [writeDiags, hparts, hrun, hfile, if_false]
  match args, hshort with
  | [], _ => rfl
  | [_], _ => rfl
  | [_, _], _ => rfl
  | [_, _, _], _ => rfl
  | [_, _, _, _], _ => rfl
  | _ :: _ :: _ :: _ :: _ :: _, h =>
    simp only [List.length_cons] at h
    omega

/-- A command that runs successfully with at least six fields has its output written to the
file named by its fourth and sixth fields, and `writeDiags` returns nil. -/
theorem writeDiags_six_fields (sys : Sys) (tr : List Effect) (cmds : diagCmd) (dir : String)
    (p0 p1 p2 p3 p4 p5 : String) (more : List String)
    (hparts : Fields cmds.cmd = p0 :: p1 :: p2 :: p3 :: p4 :: p5 :: more)
    (hrun : (sys.CombinedOutput tr p0 (p1 :: p2 :: p3 :: p4 :: p5 :: more)).2 = none)
    (hfile : cmds.filename ≠ "") :
    writeDiags sys tr cmds dir =
      (Result.nil, tr ++ [Effect.CombinedOutput p0 (p1 :: p2 :: p3 :: p4 :: p5 :: more)] ++
        [Effect.WriteFile (sys.Join dir p3 p5)
          (sys.CombinedOutput tr p0 (p1 :: p2 :: p3 :: p4 :: p5 :: more)).1]) := by
  simp only [writeDiags, hparts, hrun, hfile, if_false]
  simp

/-- A command string without any field (empty or blank) makes `writeDiags` panic on the slice
expression `parts[1:]` before any command is run. -/
theorem writeDiags_no_field (sys : Sys) (tr : List Effect) (cmds : diagCmd) (dir : String)
    (hparts : Fields cmds.cmd = []) :
    writeDiags sys tr cmds dir = (Result.sliceOutOfRange 1 0, tr) := by
  simp only [writeDiags, hparts]

/-- C11 at its failing input: the only command of the list of `runDiags` is `hostname` with
the filename `hostname`; its command string has the single field `hostname`, so when the
command runs successfully `writeDiags` reaches `parts[3]` on a slice of length 1 and panics
with an index out of range, after the run of the command and before any file is written. -/
theorem writeDiags_hostname_out_of_range :
    runDiagsCmds = [{ info := "", cmd := "hostname", filename := "hostname" }] ∧
    Fields "hostname" = ["hostname"] ∧
    (demoSys.CombinedOutput [] "hostname" []).2 = none ∧
    ∀ v ∈ runDiagsCmds, writeDiags demoSys [] v "/tmp/calico1/diagnostics-cluster" =
      (Result.indexOutOfRange 3 1, [Effect.CombinedOutput "hostname" []]) := by
  decide

end Cluster
